import Mathlib

/-!
Shallow embedding of the shared-mutable-state / Exclusive concurrency
primitives from `src/libcore/private.rs` (the ARC cell with its unwrap
rendezvous protocol, and the lock-plus-poison `Exclusive` built on it).

Pointers are modelled as `Int` machine words (0 is the null pointer), the
cell is modelled explicitly as a record, and the effectful operations are
modelled as pure functions that return structured outcomes recording every
externally visible effect (state of the cell, messages sent on the one-shot
channels, whether allocations were freed, whether assertions fired).
Environment inputs that the code receives through channels or the task
runtime (the boolean rendezvous response, whether the waiting task was
killed) are passed in as explicit parameters.
-/

/-- A handle to a shared cell. Mirrors `struct ArcDestruct { mut data: *libc::c_void }`:
`data` is a type-erased pointer to the heap cell, 0 meaning null. -/
structure ArcDestruct where
  data : Int
  deriving DecidableEq, Repr

/-- The heap cell. Mirrors `struct ArcData<T> { mut count: intptr_t, mut unwrapper: int, mut data: Option<T> }`.
`unwrapper` is 0 when no unwrap server is installed, otherwise the server pointer. -/
structure ArcData (T : Type) where
  count : Int
  unwrapper : Int
  data : Option T
  deriving DecidableEq, Repr

/-- Mirrors `fn compare_and_swap(address: &mut int, oldval: int, newval: int) -> bool`,
built on `atomic_cxchg`: returns the new contents of the word together with
the success flag (success iff the old contents equalled `oldval`). -/
def compare_and_swap (address oldval newval : Int) : Int × Bool :=
  if address = oldval then (newval, true) else (address, false)

/-- Externally visible outcome of running the `ArcDestruct` destructor on a
handle, given the current cell state. `cell = some c` means the heap cell is
still allocated with contents `c`; `none` means it was freed. -/
structure DropOutcome (T : Type) where
  /-- Whether the refcount was decremented at all (false only for a null handle). -/
  touchedCount : Bool
  /-- Whether the defensive assertion `new_count >= 0` fired (fatal). -/
  underflow : Bool
  /-- State of the heap cell afterwards, `none` if freed. -/
  cell : Option (ArcData T)
  /-- Whether the contained data was dropped by this destructor. -/
  dataDroppedHere : Bool
  /-- Whether the unit rendezvous message was sent to an installed unwrapper. -/
  sentMessage : Bool
  /-- Whether this destructor blocked waiting for the boolean response. -/
  waitedResponse : Bool
  deriving DecidableEq, Repr

/-- The `drop` glue of `ArcDestruct<T>` (the decrement-and-maybe-rendezvous
path). `resp` is the boolean the installed unwrapper sends back on the
response channel (consulted only in the rendezvous branch). -/
def ArcDestruct.dropHandle {T : Type} (self : ArcDestruct) (cell : ArcData T)
    (resp : Bool) : DropOutcome T :=
  if self.data = 0 then
    -- happens when destructing an unwrapper's (neutralized) handle
    { touchedCount := false, underflow := false, cell := some cell,
      dataDroppedHere := false, sentMessage := false, waitedResponse := false }
  else
    -- let new_count = atomic_xsub(&mut data.count, 1) - 1
    let newCount := cell.count - 1
    if newCount < 0 then
      -- assert new_count >= 0 fails
      { touchedCount := true, underflow := true,
        cell := some { cell with count := newCount },
        dataDroppedHere := false, sentMessage := false, waitedResponse := false }
    else if newCount = 0 then
      if cell.unwrapper ≠ 0 then
        -- send the ready signal, then unkillable wait for the response
        if resp then
          -- other task got the data: forget the cell (unwrapper frees it)
          { touchedCount := true, underflow := false,
            cell := some { cell with count := 0 },
            dataDroppedHere := false, sentMessage := true, waitedResponse := true }
        else
          -- other task was killed: drop glue takes over here
          { touchedCount := true, underflow := false, cell := none,
            dataDroppedHere := true, sentMessage := true, waitedResponse := true }
      else
        -- no unwrapper: drop glue takes over (free data and cell)
        { touchedCount := true, underflow := false, cell := none,
          dataDroppedHere := true, sentMessage := false, waitedResponse := false }
    else
      -- other handles remain: forget the cell pointer
      { touchedCount := true, underflow := false,
        cell := some { cell with count := newCount },
        dataDroppedHere := false, sentMessage := false, waitedResponse := false }

/-- Result discriminator for `unwrap_shared_mutable_state`. -/
inductive UnwrapRes (T : Type) where
  /-- The call returned the contained value. -/
  | returned (v : T)
  /-- The CAS on the unwrapper slot failed: the call dies with
  "Another task is already unwrapping this ARC!". -/
  | contended
  /-- The task was killed during the cancellable rendezvous wait; the call
  does not return. -/
  | cancelled
  /-- `option::swap_unwrap` found `data` already `None` (fatal). -/
  | dataMissing
  deriving DecidableEq, Repr

/-- Externally visible outcome of `unwrap_shared_mutable_state`. -/
structure UnwrapOutcome (T : Type) where
  res : UnwrapRes T
  /-- The handle after the call (its pointer is zeroed when neutralized). -/
  handle : ArcDestruct
  /-- State of the heap cell afterwards, `none` if freed by this call. -/
  cell : Option (ArcData T)
  /-- Whether the server endpoints were freed by this call itself. -/
  serverFreed : Bool
  /-- Whether the call entered the cancellable rendezvous wait. -/
  waited : Bool
  /-- The boolean sent on the response channel by this call, if any. -/
  sentResponse : Option Bool
  deriving DecidableEq, Repr

/-- Mirrors `unwrap_shared_mutable_state`. `serverp` is the (nonzero) address
of the freshly allocated `UnwrapProto` server; `killed` says whether the task
is killed during the cancellable `recv` wait (the only cancellation point). -/
def unwrap_shared_mutable_state {T : Type} (rc : ArcDestruct) (cell : ArcData T)
    (serverp : Int) (killed : Bool) : UnwrapOutcome T :=
  -- try to put our server end in the unwrapper slot
  let cas := compare_and_swap cell.unwrapper 0 serverp
  if cas.2 then
    let cell1 : ArcData T := { cell with unwrapper := cas.1 }
    -- step 0: tell destructor not to run; we are now it
    let rc1 : ArcDestruct := { rc with data := 0 }
    -- step 1: drop our own reference (note: the assert on new_count is
    -- commented out in the source)
    let newCount := cell1.count - 1
    if newCount = 0 then
      -- last owner: free the server endpoints, take the data, drop glue
      -- frees the cell
      match cell1.data with
      | some v =>
        { res := .returned v, handle := rc1, cell := none,
          serverFreed := true, waited := false, sentResponse := none }
      | none =>
        { res := .dataMissing, handle := rc1,
          cell := some { cell1 with count := newCount },
          serverFreed := true, waited := false, sentResponse := none }
    else
      -- the next task to see the refcount hit 0 will wake us: cancellable wait
      if killed then
        -- DeathThroes drop with task failing: send false, forget the cell
        { res := .cancelled, handle := rc1,
          cell := some { cell1 with count := newCount },
          serverFreed := false, waited := true, sentResponse := some false }
      else
        -- woken by the final dropper: recover the cell, take the data,
        -- DeathThroes drop sends true, drop glue frees the cell
        match cell1.data with
        | some v =>
          { res := .returned v, handle := rc1, cell := none,
            serverFreed := false, waited := true, sentResponse := some true }
        | none =>
          { res := .dataMissing, handle := rc1,
            cell := some { cell1 with count := newCount },
            serverFreed := false, waited := true, sentResponse := some true }
  else
    -- somebody else is unwrapping: forget the cell, free the rejected
    -- server endpoints, die with UnwrapContended
    { res := .contended, handle := rc, cell := some cell,
      serverFreed := true, waited := false, sentResponse := none }

/-- Mirrors `shared_mutable_state`: allocate the cell (at nonzero address
`ptr`) with `count = 1`, `unwrapper = 0`, `data = Some v`, and return the
handle together with the cell contents. -/
def shared_mutable_state {T : Type} (data : T) (ptr : Int) :
    ArcDestruct × ArcData T :=
  ({ data := ptr }, { count := 1, unwrapper := 0, data := some data })

/-- Mirrors `clone_shared_mutable_state`: increment the count and return a
second handle to the same cell, plus the result of the `new_count >= 2`
assertion. -/
def clone_shared_mutable_state {T : Type} (rc : ArcDestruct) (cell : ArcData T) :
    (ArcDestruct × ArcData T) × Bool :=
  let newCount := cell.count + 1
  (({ data := rc.data }, { cell with count := newCount }), decide (newCount ≥ 2))

/-- Claim C9: `shared_mutable_state v` builds a cell with exactly
`count = 1`, `unwrapper = 0`, `data = Some v`, and returns a single handle
whose pointer is the cell's address. -/
theorem shared_mutable_state_initial_cell {T : Type} (v : T) (ptr : Int) :
    (shared_mutable_state v ptr).1.data = ptr ∧
    (shared_mutable_state v ptr).2.count = 1 ∧
    (shared_mutable_state v ptr).2.unwrapper = 0 ∧
    (shared_mutable_state v ptr).2.data = some v := by
  refine ⟨rfl, rfl, rfl, rfl⟩

/-- Claim C10: dropping a handle whose internal pointer has been neutralized
(set to null, as the unwrap path does after winning the CAS) is a complete
no-op: the count is untouched, no assertion fires, the cell (unwrapper slot
and data included) is left exactly as it was, nothing is dropped or freed and
no message is sent. Moreover the unwrap path, on winning the CAS, does zero
the handle's pointer. -/
theorem drop_neutralized_handle_noop {T : Type} (rc : ArcDestruct)
    (cell : ArcData T) (resp : Bool) (h : rc.data = 0) :
    rc.dropHandle cell resp =
      { touchedCount := false, underflow := false, cell := some cell,
        dataDroppedHere := false, sentMessage := false,
        waitedResponse := false } ∧
    (∀ (rc2 : ArcDestruct) (cell2 : ArcData T) (sp : Int) (killed : Bool),
      cell2.unwrapper = 0 →
      (unwrap_shared_mutable_state rc2 cell2 sp killed).handle.data = 0) := by
  constructor
  · simp [ArcDestruct.dropHandle, h]
  · intro rc2 cell2 sp killed hu
    simp only [unwrap_shared_mutable_state, compare_and_swap, hu, if_pos rfl,
      if_true]
    split
    · cases cell2.data <;> rfl
    · split
      · rfl
      · cases cell2.data <;> rfl

/-- Witness for `drop_neutralized_handle_noop` at a concrete input. -/
theorem drop_neutralized_handle_noop_witness :
    (ArcDestruct.mk 0).dropHandle (⟨3, 0, some (5 : Nat)⟩ : ArcData Nat) true =
      { touchedCount := false, underflow := false,
        cell := some ⟨3, 0, some 5⟩, dataDroppedHere := false,
        sentMessage := false, waitedResponse := false } :=
  (drop_neutralized_handle_noop (ArcDestruct.mk 0) ⟨3, 0, some 5⟩ true rfl).1

/-- Error kinds raised by the Exclusive operations (`die!` sites). -/
inductive ExclusiveErr where
  /-- Poisoned exclusive: another task failed inside. -/
  | Poisoned
  /-- The user closure itself failed. -/
  | ClosureFailed
  deriving DecidableEq, Repr

/-- Result of an Exclusive critical section: a value or a failure. -/
inductive WithRes (U : Type) where
  | ok (u : U)
  | err (e : ExclusiveErr)
  deriving DecidableEq, Repr

/-- Mirrors `struct ExData<T> { lock: LittleLock, mut failed: bool, mut data: T }`.
The lock token itself carries no state relevant to the embedding. -/
structure ExData (T : Type) where
  lock : Unit
  failed : Bool
  data : T
  deriving DecidableEq, Repr

/-- Externally visible outcome of one `Exclusive::with` call. -/
structure WithOutcome (T U : Type) where
  /-- The `ExData` record after the call. -/
  exd : ExData T
  /-- The call result: the closure's value, or a Poisoned / closure failure. -/
  res : WithRes U
  /-- Whether the user closure was invoked at all. -/
  ranClosure : Bool
  /-- Whether the little lock is still held when the call exits. -/
  lockHeldAfter : Bool
  deriving DecidableEq, Repr

/-- Mirrors `Exclusive::with`. The closure `f` models `f(&mut rec.data)`: it
returns the (possibly mutated) data together with `some result` on normal
return, or `none` when the closure itself fails partway. The body runs under
`rec.lock.lock`; the scoped `Unlock` destructor releases the lock on every
exit path (normal return, Poisoned, or closure failure), which is why
`lockHeldAfter` is `false` in every branch. -/
def exclusiveWith {T U : Type} (rec : ExData T) (f : T → T × Option U) :
    WithOutcome T U :=
  if rec.failed then
    -- die!("Poisoned exclusive - another task failed inside!")
    { exd := rec, res := .err .Poisoned, ranClosure := false,
      lockHeldAfter := false }
  else
    let rec1 : ExData T := { rec with failed := true }
    let fr := f rec1.data
    let rec2 : ExData T := { rec1 with data := fr.1 }
    match fr.2 with
    | some u =>
      -- rec.failed = false; move result
      { exd := { rec2 with failed := false }, res := .ok u,
        ranClosure := true, lockHeldAfter := false }
    | none =>
      -- the closure failed: unwinding leaves failed = true
      { exd := rec2, res := .err .ClosureFailed, ranClosure := true,
        lockHeldAfter := false }

/-- Mirrors `Exclusive::with_imm`: delegates to `with`, adapting the
immutably borrowing closure (which cannot mutate the data). -/
def exclusiveWithImm {T U : Type} (rec : ExData T) (f : T → Option U) :
    WithOutcome T U :=
  exclusiveWith rec (fun x => (x, f x))

/-- Mirrors `fn exclusive(user_data)`: wrap `ExData { lock, failed: false,
data }` in a fresh shared cell allocated at `ptr`. -/
def exclusive {T : Type} (user_data : T) (ptr : Int) :
    ArcDestruct × ArcData (ExData T) :=
  shared_mutable_state { lock := (), failed := false, data := user_data } ptr

/-- Mirrors `unwrap_exclusive`: run `unwrap_shared_mutable_state` on the
inner cell and destructure the returned `ExData`, keeping its `data` field.
Returns the extracted value (when the unwrap returned one) together with the
full unwrap outcome. -/
def unwrap_exclusive {T : Type} (h : ArcDestruct) (cell : ArcData (ExData T))
    (sp : Int) (killed : Bool) : Option T × UnwrapOutcome (ExData T) :=
  let o := unwrap_shared_mutable_state h cell sp killed
  (match o.res with
   | .returned ex => some ex.data
   | _ => none, o)

/-- Run a sequence of `Exclusive::with` critical sections on the same cell
(each call may come from any clone: all clones share the one `ExData`),
collecting the outcome of each call. -/
def runWiths {T U : Type} (rec : ExData T) :
    List (T → T × Option U) → ExData T × List (WithOutcome T U)
  | [] => (rec, [])
  | f :: fs =>
    let o := exclusiveWith rec f
    let r := runWiths o.exd fs
    (r.1, o :: r.2)

/-- Helper: any drop of a non-null handle performs the refcount decrement. -/
theorem dropHandle_touchedCount {T : Type} (rc : ArcDestruct)
    (cell : ArcData T) (resp : Bool) (h : rc.data ≠ 0) :
    (rc.dropHandle cell resp).touchedCount = true := by
  unfold ArcDestruct.dropHandle
  rw [if_neg h]
  simp only
  split
  · rfl
  · split
    · split
      · split <;> rfl
      · rfl
    · rfl

/-- Claim C1: unwrapping an uncontended exclusive returns the original value:
`unwrap_exclusive (exclusive v)` yields `v`. With `count = 1` and
`unwrapper = 0` the unwrap takes the immediate path: its own decrement brings
the count to 0, it frees the installed server itself, moves the data out and
frees the cell, and never enters the rendezvous wait (for any scheduling of
`killed`). -/
theorem unwrap_exclusive_uncontended {T : Type} (v : T) (ptr sp : Int)
    (killed : Bool) :
    (unwrap_exclusive (exclusive v ptr).1 (exclusive v ptr).2 sp killed).1 =
      some v ∧
    (unwrap_exclusive (exclusive v ptr).1 (exclusive v ptr).2 sp killed).2.res =
      .returned { lock := (), failed := false, data := v } ∧
    (unwrap_exclusive (exclusive v ptr).1 (exclusive v ptr).2 sp
      killed).2.waited = false ∧
    (unwrap_exclusive (exclusive v ptr).1 (exclusive v ptr).2 sp
      killed).2.serverFreed = true ∧
    (unwrap_exclusive (exclusive v ptr).1 (exclusive v ptr).2 sp
      killed).2.cell = none := by
  refine ⟨?_, ?_, ?_, ?_, ?_⟩ <;> rfl

/-- Claim C2: calling unwrap on a cell whose unwrapper slot is already
non-zero makes the CAS fail and the call die with UnwrapContended; the failed
attempt leaves the cell (count, unwrapper and data) completely unchanged,
frees the freshly allocated server endpoints, sends nothing, and does not
neutralize the original handle, whose normal drop therefore still performs
the decrement. -/
theorem unwrap_contended_no_state_change {T : Type} (rc : ArcDestruct)
    (cell : ArcData T) (sp : Int) (killed resp : Bool)
    (hu : cell.unwrapper ≠ 0) (hrc : rc.data ≠ 0) :
    (unwrap_shared_mutable_state rc cell sp killed).res = .contended ∧
    (unwrap_shared_mutable_state rc cell sp killed).cell = some cell ∧
    (unwrap_shared_mutable_state rc cell sp killed).handle = rc ∧
    (unwrap_shared_mutable_state rc cell sp killed).serverFreed = true ∧
    (unwrap_shared_mutable_state rc cell sp killed).waited = false ∧
    (unwrap_shared_mutable_state rc cell sp killed).sentResponse = none ∧
    ((unwrap_shared_mutable_state rc cell sp
      killed).handle.dropHandle cell resp).touchedCount = true := by
  have hcas : (compare_and_swap cell.unwrapper 0 sp).2 = false := by
    simp [compare_and_swap, hu]
  have ho : unwrap_shared_mutable_state rc cell sp killed =
      { res := .contended, handle := rc, cell := some cell,
        serverFreed := true, waited := false, sentResponse := none } := by
    unfold unwrap_shared_mutable_state
    simp only
    rw [hcas]
    rfl
  rw [ho]
  exact ⟨rfl, rfl, rfl, rfl, rfl, rfl, dropHandle_touchedCount rc cell resp hrc⟩

/-- Witness for `unwrap_contended_no_state_change` at a concrete input. -/
theorem unwrap_contended_no_state_change_witness :
    (unwrap_shared_mutable_state (T := Nat) ⟨4⟩ ⟨2, 9, some 5⟩ 7 false).res =
      .contended ∧
    (unwrap_shared_mutable_state (T := Nat) ⟨4⟩ ⟨2, 9, some 5⟩ 7 false).cell =
      some ⟨2, 9, some 5⟩ :=
  ⟨(unwrap_contended_no_state_change ⟨4⟩ ⟨2, 9, some 5⟩ 7 false true
      (by decide) (by decide)).1,
   (unwrap_contended_no_state_change ⟨4⟩ ⟨2, 9, some 5⟩ 7 false true
      (by decide) (by decide)).2.1⟩

/-- Claim C3: dropping a handle with a non-null pointer decrements the count
by exactly one; if the result is positive nothing else in the cell changes;
if it is zero and no unwrapper is installed the data is dropped and the cell
freed; if it is zero and an unwrapper is installed, the dropper sends the
unit message, waits for the boolean response, and drops the data and frees
the cell itself exactly when the response is false (on true the unwrapper
takes over freeing). -/
theorem drop_nonnull_handle {T : Type} (rc : ArcDestruct) (cell : ArcData T)
    (resp : Bool) (h : rc.data ≠ 0) :
    (rc.dropHandle cell resp).touchedCount = true ∧
    (0 < cell.count - 1 →
      rc.dropHandle cell resp =
        { touchedCount := true, underflow := false,
          cell := some { cell with count := cell.count - 1 },
          dataDroppedHere := false, sentMessage := false,
          waitedResponse := false }) ∧
    (cell.count - 1 = 0 → cell.unwrapper = 0 →
      rc.dropHandle cell resp =
        { touchedCount := true, underflow := false, cell := none,
          dataDroppedHere := true, sentMessage := false,
          waitedResponse := false }) ∧
    (cell.count - 1 = 0 → cell.unwrapper ≠ 0 →
      (rc.dropHandle cell resp).sentMessage = true ∧
      (rc.dropHandle cell resp).waitedResponse = true ∧
      ((rc.dropHandle cell resp).dataDroppedHere = true ↔ resp = false) ∧
      (resp = true →
        (rc.dropHandle cell resp).cell = some { cell with count := 0 }) ∧
      (resp = false → (rc.dropHandle cell resp).cell = none)) := by
  refine ⟨dropHandle_touchedCount rc cell resp h, ?_, ?_, ?_⟩
  · intro hpos
    unfold ArcDestruct.dropHandle
    rw [if_neg h]
    simp only
    rw [if_neg (by omega), if_neg (by omega)]
  · intro h0 hu
    unfold ArcDestruct.dropHandle
    rw [if_neg h]
    simp only
    rw [if_neg (by omega), if_pos h0, if_neg (by simp [hu])]
  · intro h0 hu
    have he : rc.dropHandle cell resp =
        if resp then
          { touchedCount := true, underflow := false,
            cell := some { cell with count := 0 },
            dataDroppedHere := false, sentMessage := true,
            waitedResponse := true }
        else
          { touchedCount := true, underflow := false, cell := none,
            dataDroppedHere := true, sentMessage := true,
            waitedResponse := true } := by
      unfold ArcDestruct.dropHandle
      rw [if_neg h]
      simp only
      rw [if_neg (by omega), if_pos h0, if_pos hu]
    rw [he]
    cases resp <;> simp

/-- Witness for `drop_nonnull_handle` at a concrete input. -/
theorem drop_nonnull_handle_witness :
    ((ArcDestruct.mk 1).dropHandle (⟨3, 0, some (5 : Nat)⟩ : ArcData Nat)
      true).touchedCount = true ∧
    (ArcDestruct.mk 1).dropHandle (⟨3, 0, some (5 : Nat)⟩ : ArcData Nat)
      true =
      { touchedCount := true, underflow := false,
        cell := some ⟨2, 0, some 5⟩, dataDroppedHere := false,
        sentMessage := false, waitedResponse := false } :=
  ⟨(drop_nonnull_handle ⟨1⟩ ⟨3, 0, some 5⟩ true (by decide)).1,
   (drop_nonnull_handle ⟨1⟩ ⟨3, 0, some 5⟩ true (by decide)).2.1 (by decide)⟩

/-- Claim C4 counterexample: the claim says every decrement of count, in the
unwrap path too, is followed by a defensive assertion that the new value is
at least 0, with a violation being fatal. In the source the assertion in
`unwrap_shared_mutable_state` is commented out (`//assert new_count >= 0;`).
Concretely, unwrapping a cell whose count is already 0 makes the decrement
yield -1, and instead of dying with RefcountUnderflow the call proceeds into
the cancellable rendezvous wait and completes. -/
theorem unwrap_decrement_unchecked_cex :
    ((0 : Int) - 1 < 0) ∧
    (unwrap_shared_mutable_state (T := Nat) ⟨1⟩ ⟨0, 0, some 5⟩ 7
      false).waited = true ∧
    (unwrap_shared_mutable_state (T := Nat) ⟨1⟩ ⟨0, 0, some 5⟩ 7 false).res =
      .returned 5 := by
  refine ⟨by decide, by decide, by decide⟩

/-- Claim C4 as amended: only the handle drop path checks the decremented
count with the defensive assertion (it reports underflow exactly when the new
value is negative); the decrement in the unwrap path is not followed by any
assertion (the source comments it out), so a negative new count there simply
proceeds into the rendezvous wait. -/
theorem decrement_assert_only_in_drop_path {T : Type} (rc : ArcDestruct)
    (cell : ArcData T) (resp : Bool) (sp : Int) (killed : Bool)
    (h : rc.data ≠ 0) :
    (cell.count - 1 < 0 → (rc.dropHandle cell resp).underflow = true) ∧
    (0 ≤ cell.count - 1 → (rc.dropHandle cell resp).underflow = false) ∧
    (cell.unwrapper = 0 → cell.count - 1 < 0 →
      (unwrap_shared_mutable_state rc cell sp killed).waited = true) := by
  refine ⟨?_, ?_, ?_⟩
  · intro hlt
    unfold ArcDestruct.dropHandle
    rw [if_neg h]
    simp only
    rw [if_pos hlt]
  · intro hge
    unfold ArcDestruct.dropHandle
    rw [if_neg h]
    simp only
    rw [if_neg (by omega)]
    split
    · split
      · split <;> rfl
      · rfl
    · rfl
  · intro hu hlt
    have hcas : (compare_and_swap cell.unwrapper 0 sp).2 = true := by
      simp [compare_and_swap, hu]
    unfold unwrap_shared_mutable_state
    simp only [hcas, if_true]
    rw [if_neg (by omega)]
    cases killed
    · simp only [Bool.false_eq_true, if_false]
      cases cell.data <;> rfl
    · rfl

/-- Witness for `decrement_assert_only_in_drop_path` at a concrete input. -/
theorem decrement_assert_only_in_drop_path_witness :
    ((ArcDestruct.mk 1).dropHandle (⟨0, 0, some (5 : Nat)⟩ : ArcData Nat)
      true).underflow = true ∧
    (unwrap_shared_mutable_state (T := Nat) ⟨1⟩ ⟨0, 0, some 5⟩ 7 true).waited
      = true :=
  ⟨(decrement_assert_only_in_drop_path ⟨1⟩ ⟨0, 0, some 5⟩ true 7 true
      (by decide)).1 (by decide),
   (decrement_assert_only_in_drop_path ⟨1⟩ ⟨0, 0, some 5⟩ true 7 true
      (by decide)).2.2 (by decide) (by decide)⟩

/-- An abstract operation on the cell, for stating the at-most-one-unwrapper
invariant: a clone (its increment), a handle drop (its decrement), or an
unwrap initiation attempting the CAS with a fresh server box allocated at
address `serverp`. -/
inductive CellOp where
  | cloneOp
  | dropOp
  | unwrapOp (serverp : Int)
  deriving DecidableEq, Repr

/-- Effect of one operation on the cell, paired with a flag recording whether
this operation installed an unwrapper (won the CAS from 0). -/
def applyOp {T : Type} (c : ArcData T) : CellOp → ArcData T × Bool
  | .cloneOp => ({ c with count := c.count + 1 }, false)
  | .dropOp => ({ c with count := c.count - 1 }, false)
  | .unwrapOp sp =>
    let cas := compare_and_swap c.unwrapper 0 sp
    if cas.2 then ({ c with unwrapper := cas.1, count := c.count - 1 }, true)
    else (c, false)

/-- Run a serialized interleaving of cell operations, counting how many of
them installed an unwrapper. -/
def runOps {T : Type} (c : ArcData T) : List CellOp → ArcData T × Nat
  | [] => (c, 0)
  | op :: ops =>
    let s := applyOp c op
    let r := runOps s.1 ops
    (r.1, (if s.2 then 1 else 0) + r.2)

/-- Well-formed operation: a real unwrap attempt carries the address of a
freshly allocated server box, which is never null. -/
def CellOp.wf : CellOp → Prop
  | .unwrapOp sp => sp ≠ 0
  | _ => True

/-- Helper: no operation ever resets a non-zero unwrapper slot, and with the
slot occupied no CAS can succeed. -/
theorem applyOp_preserves_unwrapper {T : Type} {c : ArcData T}
    (h : c.unwrapper ≠ 0) (op : CellOp) :
    ((applyOp c op).1).unwrapper ≠ 0 ∧ (applyOp c op).2 = false := by
  cases op with
  | cloneOp => exact ⟨h, rfl⟩
  | dropOp => exact ⟨h, rfl⟩
  | unwrapOp sp =>
    have hcas : (compare_and_swap c.unwrapper 0 sp).2 = false := by
      simp [compare_and_swap, h]
    unfold applyOp
    simp only [hcas, Bool.false_eq_true, if_false]
    exact ⟨h, trivial⟩

/-- Helper: once the unwrapper slot is occupied, no later operation installs. -/
theorem runOps_no_install {T : Type} :
    ∀ (ops : List CellOp) (c : ArcData T), c.unwrapper ≠ 0 →
      (runOps c ops).2 = 0
  | [], _, _ => rfl
  | op :: ops, c, h => by
    obtain ⟨h1, h2⟩ := applyOp_preserves_unwrapper h op
    unfold runOps
    simp only [h2, Bool.false_eq_true, if_false]
    rw [runOps_no_install ops _ h1]

/-- Helper: starting from an empty unwrapper slot, at most one well-formed
operation ever installs an unwrapper. -/
theorem runOps_le_one_install {T : Type} :
    ∀ (ops : List CellOp) (c : ArcData T), c.unwrapper = 0 →
      (∀ op ∈ ops, op.wf) → (runOps c ops).2 ≤ 1
  | [], _, _, _ => by simp [runOps]
  | op :: ops, c, h0, hwf => by
    have hwops : ∀ op ∈ ops, op.wf := fun o ho => hwf o (List.mem_cons_of_mem _ ho)
    cases op with
    | cloneOp =>
      unfold runOps applyOp
      simpa using runOps_le_one_install ops { c with count := c.count + 1 } h0 hwops
    | dropOp =>
      unfold runOps applyOp
      simpa using runOps_le_one_install ops { c with count := c.count - 1 } h0 hwops
    | unwrapOp sp =>
      have hsp : sp ≠ 0 := hwf (.unwrapOp sp) (List.mem_cons_self _ _)
      have hcas : compare_and_swap c.unwrapper 0 sp = (sp, true) := by
        simp [compare_and_swap, h0]
      unfold runOps applyOp
      simp only [hcas, if_true]
      have hrest :
          (runOps { c with unwrapper := sp, count := c.count - 1 } ops).2 = 0 :=
        runOps_no_install ops _ (by simpa using hsp)
      simp [hrest]

/-- Claim C5: at most one task ever installs a non-zero value into the
unwrapper slot of a cell. Installation happens only through the CAS from 0,
so over any serialized interleaving of well-formed clone / drop / unwrap
operations starting with an empty slot, at most one operation installs; of k
consecutive unwrap attempts (k at least 1) exactly one installs; and any CAS
attempted while the slot is occupied fails and leaves the cell unchanged
(which is the UnwrapContended outcome). -/
theorem at_most_one_unwrapper_install {T : Type} (c : ArcData T)
    (h0 : c.unwrapper = 0) :
    (∀ ops : List CellOp, (∀ op ∈ ops, op.wf) → (runOps c ops).2 ≤ 1) ∧
    (∀ sps : List Int, sps ≠ [] → (∀ sp ∈ sps, sp ≠ 0) →
      (runOps c (sps.map CellOp.unwrapOp)).2 = 1) ∧
    (∀ (c2 : ArcData T) (sp : Int), c2.unwrapper ≠ 0 →
      applyOp c2 (.unwrapOp sp) = (c2, false)) := by
  refine ⟨fun ops hwf => runOps_le_one_install ops c h0 hwf, ?_, ?_⟩
  · rintro (_ | ⟨sp, sps⟩) hne hnz
    · exact absurd rfl hne
    · have hsp : sp ≠ 0 := hnz sp (List.mem_cons_self _ _)
      have hcas : compare_and_swap c.unwrapper 0 sp = (sp, true) := by
        simp [compare_and_swap, h0]
      unfold runOps applyOp
      simp only [List.map_cons, hcas, if_true]
      have hrest :
          (runOps { c with unwrapper := sp, count := c.count - 1 }
            (sps.map CellOp.unwrapOp)).2 = 0 :=
        runOps_no_install _ _ (by simpa using hsp)
      simp [hrest]
  · intro c2 sp h2
    have hcas : (compare_and_swap c2.unwrapper 0 sp).2 = false := by
      simp [compare_and_swap, h2]
    unfold applyOp
    simp [hcas]

/-- Witness for `at_most_one_unwrapper_install` at a concrete input: two
racing unwrap attempts on a fresh cell yield exactly one installation. -/
theorem at_most_one_unwrapper_install_witness :
    (runOps (⟨2, 0, some (0 : Nat)⟩ : ArcData Nat)
      ([5, 7].map CellOp.unwrapOp)).2 = 1 :=
  (at_most_one_unwrapper_install ⟨2, 0, some 0⟩ rfl).2.1 [5, 7] (by decide)
    (by decide)

/-- Helper: closed-form unfolding of one `Exclusive::with` call. -/
theorem exclusiveWith_eq {T U : Type} (rec : ExData T) (f : T → T × Option U) :
    exclusiveWith rec f =
      if rec.failed then
        { exd := rec, res := .err .Poisoned, ranClosure := false,
          lockHeldAfter := false }
      else
        match f rec.data with
        | (d, some u) =>
          { exd := ⟨rec.lock, false, d⟩, res := .ok u, ranClosure := true,
            lockHeldAfter := false }
        | (d, none) =>
          { exd := ⟨rec.lock, true, d⟩, res := .err .ClosureFailed,
            ranClosure := true, lockHeldAfter := false } := by
  unfold exclusiveWith
  split
  · rfl
  · simp only
    generalize f rec.data = fr
    rcases fr with ⟨d, r⟩
    cases r <;> rfl

/-- Helper: a call on a poisoned record dies with Poisoned, runs nothing and
changes nothing. -/
theorem exclusiveWith_poisoned {T U : Type} (rec : ExData T)
    (f : T → T × Option U) (h : rec.failed = true) :
    exclusiveWith rec f =
      { exd := rec, res := .err .Poisoned, ranClosure := false,
        lockHeldAfter := false } := by
  rw [exclusiveWith_eq, if_pos h]

/-- Helper: a call that ends in ClosureFailed leaves the poison flag set. -/
theorem exclusiveWith_closureFailed_poisons {T U : Type} (rec : ExData T)
    (f : T → T × Option U)
    (h : (exclusiveWith rec f).res = .err .ClosureFailed) :
    (exclusiveWith rec f).exd.failed = true := by
  rw [exclusiveWith_eq] at h ⊢
  split at h
  · simp at h
  · rename_i hnf
    split at h
    · simp at h
    · rw [if_neg hnf]

/-- Helper: on a poisoned record, every critical section in a sequence dies
with Poisoned without running its closure, and the record never changes. -/
theorem runWiths_poisoned {T U : Type} :
    ∀ (fs : List (T → T × Option U)) (rec : ExData T), rec.failed = true →
      (runWiths rec fs).1 = rec ∧
      ∀ o ∈ (runWiths rec fs).2,
        o.res = .err .Poisoned ∧ o.ranClosure = false
  | [], rec, _ => ⟨rfl, by simp [runWiths]⟩
  | f :: fs, rec, h => by
    have h1 := exclusiveWith_poisoned (U := U) rec f h
    have hrec : (exclusiveWith rec f).exd = rec := by rw [h1]
    obtain ⟨ih1, ih2⟩ := runWiths_poisoned fs rec h
    unfold runWiths
    simp only [hrec]
    refine ⟨ih1, ?_⟩
    intro o ho
    rcases List.mem_cons.1 ho with ho1 | ho2
    · subst ho1
      rw [h1]
      exact ⟨rfl, rfl⟩
    · exact ih2 o ho2

/-- Claim C6: `Exclusive::with` under the inner lock. On entry, a set poison
flag makes the call die with Poisoned before the closure runs and leaves the
record untouched. Otherwise the flag is set, the closure is invoked on the
data, and on its normal return the flag is reset and its result returned; if
the closure fails the flag stays set. In every case the scoped lock frame has
released the little lock by the time the call exits. -/
theorem exclusive_with_semantics {T U : Type} (rec : ExData T)
    (f : T → T × Option U) :
    (rec.failed = true →
      exclusiveWith rec f =
        { exd := rec, res := .err .Poisoned, ranClosure := false,
          lockHeldAfter := false }) ∧
    (rec.failed = false →
      (exclusiveWith rec f).ranClosure = true ∧
      (∀ d u, f rec.data = (d, some u) →
        exclusiveWith rec f =
          { exd := { rec with data := d, failed := false }, res := .ok u,
            ranClosure := true, lockHeldAfter := false }) ∧
      (∀ d, f rec.data = (d, none) →
        exclusiveWith rec f =
          { exd := { rec with data := d, failed := true },
            res := .err .ClosureFailed, ranClosure := true,
            lockHeldAfter := false })) ∧
    (exclusiveWith rec f).lockHeldAfter = false := by
  refine ⟨fun h => exclusiveWith_poisoned rec f h, fun h => ⟨?_, ?_, ?_⟩, ?_⟩
  · rw [exclusiveWith_eq, if_neg (by simp [h])]
    rcases hfr : f rec.data with ⟨d, r⟩
    cases r <;> rfl
  · intro d u hfd
    rw [exclusiveWith_eq, if_neg (by simp [h]), hfd]
  · intro d hfd
    rw [exclusiveWith_eq, if_neg (by simp [h]), hfd]
  · rw [exclusiveWith_eq]
    split
    · rfl
    · rcases hfr : f rec.data with ⟨d, r⟩
      cases r <;> rfl

/-- Witness for `exclusive_with_semantics` at a concrete input. -/
theorem exclusive_with_semantics_witness :
    exclusiveWith (⟨(), false, (3 : Nat)⟩ : ExData Nat)
      (fun x => (x + 1, some x)) =
      { exd := ⟨(), false, 4⟩, res := .ok 3, ranClosure := true,
        lockHeldAfter := false } :=
  ((exclusive_with_semantics ⟨(), false, 3⟩
      (fun x => (x + 1, some x))).2.1 rfl).2.1 4 3 rfl

/-- Claim C7: poison propagation. If one critical section fails (leaving the
record with the poison flag set), then every subsequent `with` call on any
clone of the Exclusive (all clones share the single `ExData` record; a
`with_imm` call is a `with` call with an adapted closure) dies with Poisoned
without ever running its closure, for the rest of the cell's life. -/
theorem poison_propagation {T U : Type} (rec : ExData T)
    (f : T → T × Option U) (fs : List (T → T × Option U))
    (h : (exclusiveWith rec f).res = .err .ClosureFailed) :
    ∀ o ∈ (runWiths (exclusiveWith rec f).exd fs).2,
      o.res = .err .Poisoned ∧ o.ranClosure = false :=
  (runWiths_poisoned fs (exclusiveWith rec f).exd
    (exclusiveWith_closureFailed_poisons rec f h)).2

/-- Witness for `poison_propagation` at a concrete input. -/
theorem poison_propagation_witness :
    (exclusiveWith (exclusiveWith (⟨(), false, (1 : Nat)⟩ : ExData Nat)
        (fun x => (x, (none : Option Nat)))).exd
        (fun x => (x, some x))).res = .err .Poisoned ∧
    (exclusiveWith (exclusiveWith (⟨(), false, (1 : Nat)⟩ : ExData Nat)
        (fun x => (x, (none : Option Nat)))).exd
        (fun x => (x, some x))).ranClosure = false :=
  poison_propagation ⟨(), false, 1⟩ (fun x => (x, none))
    [fun x => (x, some x)] rfl
    (exclusiveWith (exclusiveWith (⟨(), false, (1 : Nat)⟩ : ExData Nat)
      (fun x => (x, (none : Option Nat)))).exd (fun x => (x, some x)))
    (by simp [runWiths])

/-- Modelled from the spec words, for the refinement claim C8 only: the spec
says with_ref is identical to with but borrows immutably, which amounts to
acquiring the lock, dying with Poisoned if the poison flag is set, otherwise
setting the flag, running the immutably borrowing closure (which cannot
change the data), resetting the flag on the closure's normal return and
keeping it set on closure failure. -/
def withRefSpec {T U : Type} (rec : ExData T) (f : T → Option U) :
    WithOutcome T U :=
  if rec.failed then
    { exd := rec, res := .err .Poisoned, ranClosure := false,
      lockHeldAfter := false }
  else
    match f rec.data with
    | some u =>
      { exd := rec, res := .ok u, ranClosure := true, lockHeldAfter := false }
    | none =>
      { exd := { rec with failed := true }, res := .err .ClosureFailed,
        ranClosure := true, lockHeldAfter := false }

/-- Claim C8: the immutable-borrow operation is behaviourally identical to
`with`: for every closure, `with_imm f` is exactly `with` applied to the
adaptation of `f` that leaves the data unchanged, and both coincide with the
operation the spec describes in its own words for with_ref (same lock
acquisition, same Poisoned check, same poison set and reset, same result). -/
theorem with_imm_is_with {T U : Type} (rec : ExData T) (f : T → Option U) :
    exclusiveWithImm rec f = exclusiveWith rec (fun x => (x, f x)) ∧
    exclusiveWithImm rec f = withRefSpec rec f := by
  refine ⟨rfl, ?_⟩
  unfold exclusiveWithImm withRefSpec
  rw [exclusiveWith_eq]
  rcases rec with ⟨l, fl, d⟩
  cases fl
  · simp only [if_neg]
    cases f d <;> rfl
  · rfl
